import Mathlib

/-!
# Shallow embedding of `nen2580_inhoud_excel.py` (Volume_Berekenaar)

Pure fragments of the Python source are translated into Lean functions.
Numbers are modelled as exact rationals (`ℚ`). A Python computation that
may raise an exception is modelled as `Except Unit _`; a handler in the
source becomes a `match` on that result. External collaborators
(ifcopenshell geometry kernel, trimesh, scipy's ConvexHull) are modelled
as oracle functions carried in an explicit `Config`, mirroring the
process-wide `HAS_GEOM` / `HAS_TRIMESH` / `HAS_SCIPY` capability flags
and the per-call results of the third-party libraries.
-/

/-- A Python attribute value fed to `float(...)`: either numeric
(conversion succeeds, yielding a rational) or non-numeric
(conversion raises). -/
inductive PyVal where
  | num (q : ℚ)
  | nonNum
deriving DecidableEq

/-- Embeds `float(v)`: succeeds on numeric values, raises otherwise. -/
def floatConv : PyVal → Except Unit ℚ
  | .num q => .ok q
  | .nonNum => .error ()

/-- An `IfcQuantityVolume`-candidate inside an `IfcElementQuantity`
(`rpd.Quantities`).  `isVolume` is `q.is_a("IfcQuantityVolume")`;
`name` is `q.Name` (`none` models Python `None`); `volumeValue` is the
`q.VolumeValue` attribute (`none`: missing or `None`); `nominalWrapped`
is the `q.NominalValue.wrappedValue` chain (`none`: accessing it
raises). -/
structure IfcQuantity where
  isVolume : Bool
  name : Option String
  volumeValue : Option PyVal
  nominalWrapped : Option PyVal
deriving DecidableEq

/-- A property inside an `IfcPropertySet` (`rpd.HasProperties`). -/
structure IfcProperty where
  name : Option String
  nominalWrapped : Option PyVal
deriving DecidableEq

/-- Embeds `rel.RelatingPropertyDefinition`, dispatched on `is_a`. -/
inductive Rpd where
  | elementQuantity (quantities : List IfcQuantity)
  | propertySet (properties : List IfcProperty)
  | other
deriving DecidableEq

/-- One entry of `obj.IsDefinedBy`; `getattr(rel,
"RelatingPropertyDefinition", None)` gives an optional definition. -/
structure IfcRel where
  relatingPropertyDefinition : Option Rpd
deriving DecidableEq

/-- Python's `str.lower()`, mapped over the characters. -/
def pyLower (s : String) : String := String.mk (s.toList.map Char.toLower)

/-- The membership test `x.Name in names or x.Name.lower() in
[n.lower() for n in names]`.  When the name is Python `None`, the first
disjunct is `False` and `None.lower()` raises `AttributeError`
(uncaught at this point of the source). -/
def nameMatches (names : List String) : Option String → Except Unit Bool
  | none => .error ()
  | some s => .ok (names.contains s || (names.map pyLower).contains (pyLower s))

/-- The `for q in (rpd.Quantities or [])` loop body of
`get_quantity_volume_from_obj`.  `.ok (some v)` models `return v`,
`.ok none` models falling off the loop, `.error ()` models an uncaught
exception (a non-numeric `VolumeValue` or a `None` name); only the
`float(q.NominalValue.wrappedValue)` conversion sits in an inner
`try/except: pass`. -/
def scanQuantities (names : List String) : List IfcQuantity → Except Unit (Option ℚ)
  | [] => .ok none
  | q :: rest =>
    if q.isVolume then
      match nameMatches names q.name with
      | .error _ => .error ()
      | .ok true =>
        match q.volumeValue with
        | some v =>
          match floatConv v with
          | .ok x => .ok (some x)
          | .error _ => .error ()
        | none =>
          match q.nominalWrapped with
          | some v =>
            match floatConv v with
            | .ok x => .ok (some x)
            | .error _ => scanQuantities names rest
          | none => scanQuantities names rest
      | .ok false => scanQuantities names rest
    else scanQuantities names rest

/-- The `for p in (rpd.HasProperties or [])` loop body; the whole
`float(p.NominalValue.wrappedValue)` extraction is inside
`try/except: pass`, but a `None` name still raises in the match
condition. -/
def scanProperties (names : List String) : List IfcProperty → Except Unit (Option ℚ)
  | [] => .ok none
  | p :: rest =>
    match nameMatches names p.name with
    | .error _ => .error ()
    | .ok true =>
      match p.nominalWrapped with
      | some v =>
        match floatConv v with
        | .ok x => .ok (some x)
        | .error _ => scanProperties names rest
      | none => scanProperties names rest
    | .ok false => scanProperties names rest

/-- The `for rel in obj.IsDefinedBy` loop of
`get_quantity_volume_from_obj`. -/
def scanRels (names : List String) : List IfcRel → Except Unit (Option ℚ)
  | [] => .ok none
  | rel :: rest =>
    match rel.relatingPropertyDefinition with
    | none => scanRels names rest
    | some rpd =>
      let r : Except Unit (Option ℚ) :=
        match rpd with
        | .elementQuantity qs => scanQuantities names qs
        | .propertySet ps => scanProperties names ps
        | .other => .ok none
      match r with
      | .error _ => .error ()
      | .ok (some v) => .ok (some v)
      | .ok none => scanRels names rest

/-- A model entity: `GlobalId`, optional `Name`, the `IsDefinedBy`
relationships, and the optional `IsExternal` flag read with
`getattr(w, "IsExternal", None)`. -/
structure Entity where
  globalId : String
  name : Option String
  isDefinedBy : List IfcRel
  isExternal : Option Bool
deriving DecidableEq

/-- Embeds `get_quantity_volume_from_obj(obj, names)`: the whole scan sits in
an outer `try/except Exception: return None`, so an uncaught exception
inside the scan yields `None` for the entire lookup. -/
def get_quantity_volume_from_obj (obj : Entity) (names : List String) : Option ℚ :=
  match scanRels names obj.isDefinedBy with
  | .error _ => none
  | .ok r => r

/-- A 3D point, as exact rationals. -/
abbrev Vec3 := ℚ × ℚ × ℚ

/-- A triangle as three vertex indices (`faces` rows). -/
abbrev Face := Nat × Nat × Nat

/-- A triangulated mesh as produced by `shape_to_mesh`: vertex rows and
triangle index rows; either list may be empty. -/
structure Mesh where
  verts : List Vec3
  faces : List Face
deriving DecidableEq

/-- Embeds `np.cross(b, c)` for 3-vectors. -/
def cross3 (b c : Vec3) : Vec3 :=
  (b.2.1 * c.2.2 - b.2.2 * c.2.1,
   b.2.2 * c.1 - b.1 * c.2.2,
   b.1 * c.2.1 - b.2.1 * c.1)

/-- Embeds `np.dot(a, x)` for 3-vectors. -/
def dot3 (a x : Vec3) : ℚ :=
  a.1 * x.1 + a.2.1 * x.2.1 + a.2.2 * x.2.2

/-- One iteration of the signed-volume loop:
`np.dot(a, np.cross(b, c)) / 6.0` for `a, b, c = verts[f[0]],
verts[f[1]], verts[f[2]]`; an out-of-range index raises. -/
def faceTerm (verts : List Vec3) (f : Face) : Except Unit ℚ :=
  match verts[f.1]?, verts[f.2.1]?, verts[f.2.2]? with
  | some a, some b, some c => .ok (dot3 a (cross3 b c) / 6)
  | _, _, _ => .error ()

/-- The signed-volume accumulation over all faces; any raised exception
aborts the whole tier (the partial sum is discarded by the `except`). -/
def signedSum (verts : List Vec3) : List Face → Except Unit ℚ
  | [] => .ok 0
  | f :: fs =>
    match faceTerm verts f with
    | .error _ => .error ()
    | .ok t =>
      match signedSum verts fs with
      | .error _ => .error ()
      | .ok r => .ok (t + r)

/-- Embeds `float(np.prod(maxs - mins))` for a nonempty vertex list given as
head and tail: product of the per-axis extents. -/
def bboxVolume (v : Vec3) (vs : List Vec3) : ℚ :=
  let xs := (v :: vs).map Prod.fst
  let ys := (v :: vs).map (fun p => p.2.1)
  let zs := (v :: vs).map (fun p => p.2.2)
  let range := fun (l : List ℚ) => (l.foldl max l.headI) - (l.foldl min l.headI)
  range xs * range ys * range zs

/-- The bounding-box tier as a fallible computation:
`verts.min(axis=0)` / `verts.max(axis=0)` raise on an empty array. -/
def bboxTier : List Vec3 → Except Unit ℚ
  | [] => .error ()
  | v :: vs => .ok (bboxVolume v vs)

/-- The `try: ...bounding box... except: return 0.0` tail of
`volume_from_mesh`. -/
def bboxFallback (verts : List Vec3) : ℚ :=
  match bboxTier verts with
  | .ok v => v
  | .error _ => 0

/-- Process-wide capabilities and external-library oracles, mirroring
`HAS_GEOM` / `HAS_TRIMESH` / `HAS_SCIPY` and the per-call results of
`ifcopenshell.geom.create_shape` + `shape_to_mesh` (`tessellate`; an
`.error` is a raised exception, `shape_to_mesh` itself converts its own
failures into an empty mesh), `trimesh.Trimesh(...).volume`
(`trimeshVolume`) and `scipy.spatial.ConvexHull(...).volume`
(`convexHullVolume`). -/
structure Config where
  hasGeom : Bool
  hasTrimesh : Bool
  hasScipy : Bool
  tessellate : Entity → Except Unit Mesh
  trimeshVolume : List Vec3 → List Face → Except Unit ℚ
  convexHullVolume : List Vec3 → Except Unit ℚ

/-- Embeds `volume_from_mesh(verts, faces)`: empty input returns `0.0`
immediately; otherwise the trimesh tier (if available) wins when it
returns a positive volume, else the absolute signed-tetrahedron sum
wins when positive, else the bounding-box volume, and `0.0` if even
that raises. -/
def volume_from_mesh (cfg : Config) (verts : List Vec3) (faces : List Face) : ℚ :=
  if verts = [] ∨ faces = [] then 0
  else
    let step2 : ℚ :=
      match signedSum verts faces with
      | .ok s => if |s| > 0 then |s| else bboxFallback verts
      | .error _ => bboxFallback verts
    if cfg.hasTrimesh then
      match cfg.trimeshVolume verts faces with
      | .ok v => if v > 0 then v else step2
      | .error _ => step2
    else step2

/-- Banker's rounding to an integer, as Python's `round` on a tie-free
rational value: nearest integer, ties to even. -/
def roundHalfEven (q : ℚ) : ℤ :=
  let f := ⌊q⌋
  let r := q - f
  if r < 1 / 2 then f
  else if 1 / 2 < r then f + 1
  else if f % 2 = 0 then f else f + 1

/-- Python's `round(x, 3)`. -/
def round3 (q : ℚ) : ℚ := (roundHalfEven (q * 1000) : ℚ) / 1000

/-- Python's `str.strip()`: drop leading and trailing whitespace. -/
def pyStrip (s : String) : String :=
  String.mk (((s.toList.dropWhile Char.isWhitespace).reverse.dropWhile
    Char.isWhitespace).reverse)

/-- Embeds `name = (sp.Name or "").strip() or sp.GlobalId`. -/
def displayName (sp : Entity) : String :=
  let n := pyStrip (sp.name.getD "")
  if n = "" then sp.globalId else n

/-- One row of the per-space report, as built inside
`compute_net_volume_spaces` (`Netto_m3` holds `round(vol, 3)`). -/
structure SpaceRow where
  ifcType : String
  naam : String
  globalId : String
  netto_m3 : ℚ
  methode : String
deriving DecidableEq

/-- Builds the dict appended to `rows` for one space. -/
def mkSpaceRow (sp : Entity) (vol : ℚ) (method : String) : SpaceRow :=
  { ifcType := "IfcSpace"
    naam := displayName sp
    globalId := sp.globalId
    netto_m3 := round3 vol
    methode := method }

/-- The body of the `for sp in spaces` loop of
`compute_net_volume_spaces`: the resolved (unrounded) volume that is
added to `net_total`, paired with the row appended to `rows`. -/
def processSpace (cfg : Config) (sp : Entity) : ℚ × SpaceRow :=
  match get_quantity_volume_from_obj sp ["NetVolume", "Volume"] with
  | some vol => (vol, mkSpaceRow sp vol "Quantity(Net/Volume)")
  | none =>
    if cfg.hasGeom then
      match cfg.tessellate sp with
      | .ok m =>
        if m.verts.length > 0 ∧ m.faces.length > 0 then
          let vol := volume_from_mesh cfg m.verts m.faces
          (vol, mkSpaceRow sp vol "Geometry(mesh)")
        else (0, mkSpaceRow sp 0 "Unavail")
      | .error _ => (0, mkSpaceRow sp 0 "Unavail")
    else (0, mkSpaceRow sp 0 "Unavail")

/-- The loaded model, exposing `model.by_type(...)` results for each
schema type the source queries (the two wall classes are queried
separately, in that order). -/
structure BuildingModel where
  spaces : List Entity
  buildings : List Entity
  storeys : List Entity
  wallsStandardCase : List Entity
  walls : List Entity
  slabs : List Entity
  roofs : List Entity

/-- Embeds `compute_net_volume_spaces(model)`: one row per `IfcSpace`, the
running `net_total` sums the unrounded per-space volumes. -/
def compute_net_volume_spaces (cfg : Config) (model : BuildingModel) :
    ℚ × List SpaceRow :=
  ((model.spaces.map (fun sp => (processSpace cfg sp).1)).sum,
   model.spaces.map (fun sp => (processSpace cfg sp).2))

/-- The `add(e)` helper of `collect_building_vertices`: tessellate the
element; a raised exception contributes nothing, otherwise the mesh's
vertex rows are appended. -/
def addVerts (cfg : Config) (e : Entity) : List Vec3 :=
  match cfg.tessellate e with
  | .ok m => m.verts
  | .error _ => []

/-- Embeds `is_ext in (True, None)`: include a wall unless its `IsExternal`
flag is present and `False`. -/
def wallIncluded (w : Entity) : Bool :=
  w.isExternal ≠ some false

/-- Embeds `collect_building_vertices(model)`: nothing without the geometry
kernel; else the vertices of external-or-unflagged walls (both wall
classes, in source order), all slabs and all roofs, concatenated. -/
def collect_building_vertices (cfg : Config) (model : BuildingModel) : List Vec3 :=
  if cfg.hasGeom then
    ((model.wallsStandardCase.filter wallIncluded).map (addVerts cfg)).flatten
      ++ ((model.walls.filter wallIncluded).map (addVerts cfg)).flatten
      ++ (model.slabs.map (addVerts cfg)).flatten
      ++ (model.roofs.map (addVerts cfg)).flatten
  else []

/-- The candidate names used by the gross-volume quantity tiers. -/
def grossNames : List String := ["GrossVolume", "BrutoInhoud", "Volume"]

/-- The building tier: the first `IfcBuilding` whose quantity lookup is
not `None` wins — even when the resolved value is `0`. -/
def firstBuildingQuantity (bs : List Entity) : Option ℚ :=
  bs.findSome? (fun b => get_quantity_volume_from_obj b grossNames)

/-- The storey tier's accumulated values: one entry per
`IfcBuildingStorey` whose quantity lookup is not `None`. -/
def storeyValues (sts : List Entity) : List ℚ :=
  sts.filterMap (fun st => get_quantity_volume_from_obj st grossNames)

/-- Embeds `compute_gross_volume(model)`: building quantity, else positive
storey sum, else convex hull of the collected envelope vertices when
positive, else their bounding box, else `(0.0, "None")`. -/
def compute_gross_volume (cfg : Config) (model : BuildingModel) : ℚ × String :=
  match firstBuildingQuantity model.buildings with
  | some q => (q, "IfcBuilding:GrossVolume")
  | none =>
    let vals := storeyValues model.storeys
    if vals ≠ [] ∧ vals.sum > 0 then (vals.sum, "Σ Storey:GrossVolume")
    else
      match collect_building_vertices cfg model with
      | [] => (0, "None")
      | v :: vs =>
        if cfg.hasScipy then
          match cfg.convexHullVolume (v :: vs) with
          | .ok hv =>
            if hv > 0 then (hv, "ConvexHull(external)")
            else (bboxVolume v vs, "BoundingBox(external)")
          | .error _ => (bboxVolume v vs, "BoundingBox(external)")
        else (bboxVolume v vs, "BoundingBox(external)")

/-- The wall-clock instant read by `datetime.now()` in `main`,
modelled as an explicit input to the pipeline. -/
structure Timestamp where
  year : Nat
  month : Nat
  day : Nat
  hour : Nat
  minute : Nat
deriving DecidableEq

/-- Two-digit zero padding, as `strftime`'s `%m`/`%d`/`%H`/`%M`. -/
def pad2 (n : Nat) : String :=
  if n < 10 then "0" ++ toString n else toString n

/-- Embeds `datetime.now().strftime("%Y-%m-%d %H:%M")`. -/
def formatTimestamp (t : Timestamp) : String :=
  toString t.year ++ "-" ++ pad2 t.month ++ "-" ++ pad2 t.day ++ " "
    ++ pad2 t.hour ++ ":" ++ pad2 t.minute

/-- Decimal rendering of a 3-decimal-rounded rational, as `str()` of
the corresponding Python float (`"0.0"`, `"12.5"`, `"3.375"`): integer
part, a dot, and the fractional digits with trailing zeros trimmed but
at least one digit kept. -/
def ratStr (q : ℚ) : String :=
  let sgn := if q < 0 then "-" else ""
  let a : ℚ := |q|
  let ip := (⌊a⌋).toNat
  let mil := (⌊(a - ip) * 1000⌋).toNat
  let digits :=
    if mil = 0 then "0"
    else if mil % 100 = 0 then toString (mil / 100)
    else if mil % 10 = 0 then pad2 (mil / 10)
    else if mil < 10 then "00" ++ toString mil
    else if mil < 100 then "0" ++ toString mil
    else toString mil
  sgn ++ toString ip ++ "." ++ digits

/-- One CSV field under `csv.writer`'s default `QUOTE_MINIMAL` dialect:
quoted (with inner quotes doubled) only when it contains a delimiter,
quote or line break. -/
def csvField (s : String) : String :=
  if s.toList.any (fun c => c = ',' || c = '"' || c = '\n' || c = '\r') then
    "\"" ++ String.mk (s.toList.flatMap (fun c => if c = '"' then ['"', '"'] else [c])) ++ "\""
  else s

/-- One CSV record: comma-joined fields and the writer's default
`\r\n` terminator. -/
def csvLine (fields : List String) : String :=
  String.intercalate "," (fields.map csvField) ++ "\r\n"

/-- The summary CSV written by `main`: header plus the single data row
(gross and net rounded to 3 decimals, the space count, and the
timestamp). -/
def summaryCSV (now : Timestamp) (ifcName : String) (gross : ℚ)
    (grossMethod : String) (net : ℚ) (count : Nat) : String :=
  csvLine ["Datum", "IFC_bestand", "Bruto_inhoud_m3", "Bruto_methode",
           "Netto_inhoud_m3 (Σ IfcSpace)", "Ruimtes_geteld"]
    ++ csvLine [formatTimestamp now, ifcName, ratStr (round3 gross),
                grossMethod, ratStr (round3 net), toString count]

/-- One data record of the per-space CSV. -/
def spaceRowLine (r : SpaceRow) : String :=
  csvLine [r.ifcType, r.naam, r.globalId, ratStr r.netto_m3, r.methode]

/-- The per-space CSV: header (the keys of the first row's dict, in
insertion order) plus one record per row. -/
def spacesCSV (rows : List SpaceRow) : String :=
  csvLine ["IfcType", "Naam", "GlobalId", "Netto_m3", "Methode"]
    ++ String.join (rows.map spaceRowLine)

/-- The pure tail of `main` after the model is loaded: the summary file
contents and, only when `rows` is nonempty, the per-space file
contents. -/
def mainOutputs (cfg : Config) (now : Timestamp) (ifcName : String)
    (model : BuildingModel) : String × Option String :=
  let net := compute_net_volume_spaces cfg model
  let gross := compute_gross_volume cfg model
  (summaryCSV now ifcName gross.1 gross.2 net.1 net.2.length,
   if net.2 ≠ [] then some (spacesCSV net.2) else none)

/-! ## Concrete fixtures used by counterexamples and witnesses -/

/-- A relationship carrying one volume quantity with a direct
`VolumeValue`. -/
def volQtyRel (nm : String) (v : PyVal) : IfcRel :=
  ⟨some (.elementQuantity
    [{ isVolume := true, name := some nm, volumeValue := some v, nominalWrapped := none }])⟩

/-- A relationship carrying one volume quantity with only a wrapped
nominal value. -/
def nominalQtyRel (nm : String) (v : PyVal) : IfcRel :=
  ⟨some (.elementQuantity
    [{ isVolume := true, name := some nm, volumeValue := none, nominalWrapped := some v }])⟩

/-- A run without the geometry kernel or the optional libraries. -/
def noGeomConfig : Config :=
  { hasGeom := false, hasTrimesh := false, hasScipy := false
    tessellate := fun _ => .error ()
    trimeshVolume := fun _ _ => .error ()
    convexHullVolume := fun _ => .error () }

/-- A space carrying `NetVolume = 1/3` m³ as an authoritative
quantity. -/
def spaceThird : Entity :=
  ⟨"S1", some "Room", [volQtyRel "NetVolume" (.num (1 / 3))], none⟩

/-- A model whose only entity is `spaceThird`. -/
def modelOneSpace : BuildingModel := ⟨[spaceThird], [], [], [], [], [], []⟩

/-- C1 (counterexample): with a single space whose authoritative net
volume is `1/3` m³, the aggregator still produces exactly one row, but
the returned net total (`1/3`, unrounded) differs from the sum of the
values recorded in the rows (`0.333`, rounded to 3 decimals), so the
claim's equality between the total and the recorded row values is
false. -/
theorem C1_counterexample :
    (compute_net_volume_spaces noGeomConfig modelOneSpace).2.length = 1 ∧
    (compute_net_volume_spaces noGeomConfig modelOneSpace).1 ≠
      ((compute_net_volume_spaces noGeomConfig modelOneSpace).2.map SpaceRow.netto_m3).sum := by
  have h : get_quantity_volume_from_obj spaceThird ["NetVolume", "Volume"] =
      some (1 / 3) := rfl
  refine ⟨rfl, ?_⟩
  simp only [compute_net_volume_spaces, modelOneSpace, List.map_cons, List.map_nil,
    processSpace, h, mkSpaceRow, List.sum_cons, List.sum_nil, add_zero]
  norm_num [round3, roundHalfEven]

/-- The per-space row records the 3-decimal rounding of the volume
added to the running total. -/
theorem processSpace_netto_eq (cfg : Config) (sp : Entity) :
    (processSpace cfg sp).2.netto_m3 = round3 (processSpace cfg sp).1 := by
  unfold processSpace
  rcases get_quantity_volume_from_obj sp ["NetVolume", "Volume"] with _ | v
  · rcases hg : cfg.hasGeom with _ | _
    · simp [mkSpaceRow]
    · rcases cfg.tessellate sp with _ | m
      · simp [mkSpaceRow]
      · by_cases hm : m.verts.length > 0 ∧ m.faces.length > 0 <;>
          simp [hm, mkSpaceRow]
  · simp [mkSpaceRow]

/-- C1 (amended): every space yields exactly one row (even on failed
resolution, with value 0.0 and method `Unavail`), and the returned net
total equals the sum of the unrounded per-space resolved volumes; the
rows record those volumes rounded to 3 decimals, so the total need not
equal the sum of the recorded values. -/
theorem C1_one_row_per_space_total_unrounded (cfg : Config) (model : BuildingModel) :
    (compute_net_volume_spaces cfg model).2.length = model.spaces.length ∧
    (compute_net_volume_spaces cfg model).1 =
      (model.spaces.map (fun sp => (processSpace cfg sp).1)).sum ∧
    (compute_net_volume_spaces cfg model).2.map SpaceRow.netto_m3 =
      model.spaces.map (fun sp => round3 (processSpace cfg sp).1) := by
  refine ⟨by simp [compute_net_volume_spaces], rfl, ?_⟩
  simp only [compute_net_volume_spaces, List.map_map]
  exact List.map_congr_left (fun sp _ => processSpace_netto_eq cfg sp)

/-- A space with no property/quantity relationships at all. -/
def bareSpace : Entity := ⟨"S2", some "Atrium", [], none⟩

/-- A run with the geometry kernel, where tessellation succeeds but
yields an empty mesh. -/
def emptyMeshConfig : Config :=
  { hasGeom := true, hasTrimesh := false, hasScipy := false
    tessellate := fun _ => .ok ⟨[], []⟩
    trimeshVolume := fun _ _ => .error ()
    convexHullVolume := fun _ => .error () }

/-- A model whose only entity is `bareSpace`. -/
def emptyMeshModel : BuildingModel := ⟨[bareSpace], [], [], [], [], [], []⟩

/-- C2 (counterexample): the quantity lookup on `bareSpace` is absent
and tessellation is available, yet — because the tessellated mesh is
empty — the produced row is tagged `Unavail`, not `Geometry(mesh)`. -/
theorem C2_counterexample :
    get_quantity_volume_from_obj bareSpace ["NetVolume", "Volume"] = none ∧
    emptyMeshConfig.hasGeom = true ∧
    emptyMeshConfig.tessellate bareSpace = .ok ⟨[], []⟩ ∧
    (compute_net_volume_spaces emptyMeshConfig emptyMeshModel).2.map SpaceRow.methode =
      ["Unavail"] := by
  exact ⟨rfl, rfl, rfl, rfl⟩

/-- C2 (amended): whenever the Quantity Resolver returns absent and
tessellation is available and succeeds, the space's row is tagged
`Geometry(mesh)` exactly when the mesh is non-empty — even when the
estimated volume is 0 (degenerate mesh); an empty mesh instead yields
value 0.0 tagged `Unavail`. -/
theorem C2_geometry_tag_iff_nonempty_mesh (cfg : Config) (model : BuildingModel)
    (i : Nat) (sp : Entity) (m : Mesh)
    (hsp : model.spaces[i]? = some sp)
    (habs : get_quantity_volume_from_obj sp ["NetVolume", "Volume"] = none)
    (hg : cfg.hasGeom = true)
    (hm : cfg.tessellate sp = .ok m) :
    (compute_net_volume_spaces cfg model).2[i]? =
      some (if m.verts.length > 0 ∧ m.faces.length > 0 then
              mkSpaceRow sp (volume_from_mesh cfg m.verts m.faces) "Geometry(mesh)"
            else mkSpaceRow sp 0 "Unavail") := by
  have hps : (processSpace cfg sp).2 =
      (if m.verts.length > 0 ∧ m.faces.length > 0 then
        mkSpaceRow sp (volume_from_mesh cfg m.verts m.faces) "Geometry(mesh)"
      else mkSpaceRow sp 0 "Unavail") := by
    simp only [processSpace, habs, hg, hm]
    exact apply_ite Prod.snd (m.verts.length > 0 ∧ m.faces.length > 0)
      (volume_from_mesh cfg m.verts m.faces,
        mkSpaceRow sp (volume_from_mesh cfg m.verts m.faces) "Geometry(mesh)")
      (0, mkSpaceRow sp 0 "Unavail")
  simp [compute_net_volume_spaces, List.getElem?_map, hsp, hps]

/-- A run whose tessellation yields a degenerate one-point,
one-triangle mesh. -/
def degenerateMeshConfig : Config :=
  { hasGeom := true, hasTrimesh := false, hasScipy := false
    tessellate := fun _ => .ok ⟨[(0, 0, 0)], [(0, 0, 0)]⟩
    trimeshVolume := fun _ _ => .error ()
    convexHullVolume := fun _ => .error () }

/-- A model whose only entity is `bareSpace`, used with the degenerate
tessellation. -/
def degenerateMeshModel : BuildingModel := ⟨[bareSpace], [], [], [], [], [], []⟩

/-- C2 (witness): on the degenerate non-empty mesh the row is tagged
`Geometry(mesh)` even though the estimated volume is 0. -/
theorem C2_geometry_tag_iff_nonempty_mesh_witness :
    (compute_net_volume_spaces degenerateMeshConfig degenerateMeshModel).2[0]? =
      some (mkSpaceRow bareSpace
        (volume_from_mesh degenerateMeshConfig [(0, 0, 0)] [(0, 0, 0)]) "Geometry(mesh)") := by
  have h := C2_geometry_tag_iff_nonempty_mesh degenerateMeshConfig degenerateMeshModel
    0 bareSpace ⟨[(0, 0, 0)], [(0, 0, 0)]⟩ rfl rfl rfl rfl
  simpa using h

/-- C9: when tessellating a single space raises, that space's row gets
volume 0.0 with method `Unavail` (not `Geometry(mesh)`), and the loop
still produces one row per space. -/
theorem C9_tessellation_failure_recovers (cfg : Config) (model : BuildingModel)
    (i : Nat) (sp : Entity)
    (hsp : model.spaces[i]? = some sp)
    (habs : get_quantity_volume_from_obj sp ["NetVolume", "Volume"] = none)
    (hg : cfg.hasGeom = true)
    (herr : cfg.tessellate sp = .error ()) :
    (∃ row, (compute_net_volume_spaces cfg model).2[i]? = some row ∧
       row.netto_m3 = 0 ∧ row.methode = "Unavail") ∧
    (compute_net_volume_spaces cfg model).2.length = model.spaces.length := by
  have hps : (processSpace cfg sp).2 = mkSpaceRow sp 0 "Unavail" := by
    simp [processSpace, habs, hg, herr]
  refine ⟨⟨mkSpaceRow sp 0 "Unavail", ?_, ?_, rfl⟩,
    by simp [compute_net_volume_spaces]⟩
  · simp [compute_net_volume_spaces, List.getElem?_map, hsp, hps]
  · norm_num [mkSpaceRow, round3, roundHalfEven]

/-- A run with the geometry kernel where every tessellation attempt
raises. -/
def tessErrorConfig : Config :=
  { hasGeom := true, hasTrimesh := false, hasScipy := false
    tessellate := fun _ => .error ()
    trimeshVolume := fun _ _ => .error ()
    convexHullVolume := fun _ => .error () }

/-- A model with a space whose tessellation fails followed by a space
with an authoritative quantity. -/
def tessErrorModel : BuildingModel := ⟨[bareSpace, spaceThird], [], [], [], [], [], []⟩

/-- C9 (witness): the failing space's row is `0.0` / `Unavail` and both
spaces still get a row. -/
theorem C9_tessellation_failure_recovers_witness :
    (∃ row, (compute_net_volume_spaces tessErrorConfig tessErrorModel).2[0]? = some row ∧
       row.netto_m3 = 0 ∧ row.methode = "Unavail") ∧
    (compute_net_volume_spaces tessErrorConfig tessErrorModel).2.length =
      tessErrorModel.spaces.length :=
  C9_tessellation_failure_recovers tessErrorConfig tessErrorModel 0 bareSpace rfl rfl rfl rfl

/-- An `IfcBuilding` whose gross-volume quantity resolves to `0`. -/
def zeroBuilding : Entity := ⟨"B1", none, [volQtyRel "GrossVolume" (.num 0)], none⟩

/-- An `IfcBuildingStorey` whose gross-volume quantity resolves to
`7`. -/
def sevenStorey : Entity := ⟨"ST1", none, [volQtyRel "GrossVolume" (.num 7)], none⟩

/-- A model with a zero-quantity building and a storey that would have
supplied `7` m³ at the next tier. -/
def zeroGrossModel : BuildingModel := ⟨[], [zeroBuilding], [sevenStorey], [], [], [], []⟩

/-- C3 (counterexample): the first building's resolved gross-volume
quantity is `0`, a storey tier with value `7` is available, yet
`compute_gross_volume` returns `0` tagged `IfcBuilding:GrossVolume`
rather than advancing. -/
theorem C3_counterexample :
    compute_gross_volume noGeomConfig zeroGrossModel = (0, "IfcBuilding:GrossVolume") ∧
    storeyValues zeroGrossModel.storeys = [7] := ⟨rfl, rfl⟩

/-- C3 (amended): a resolved building-level quantity — even `0` — is
returned immediately tagged `IfcBuilding:GrossVolume`; only below that
tier does a nonpositive result advance: with no building quantity and
a nonpositive storey sum, the result comes from the geometric tiers
(`ConvexHull(external)`, `BoundingBox(external)` or `None`), never from
the storey tag. -/
theorem C3_zero_advances_below_building_tier (cfg : Config) (model : BuildingModel) :
    (∀ q, firstBuildingQuantity model.buildings = some q →
       compute_gross_volume cfg model = (q, "IfcBuilding:GrossVolume")) ∧
    (firstBuildingQuantity model.buildings = none →
     (storeyValues model.storeys).sum ≤ 0 →
       (compute_gross_volume cfg model).2 ≠ "Σ Storey:GrossVolume" ∧
       (compute_gross_volume cfg model).2 ∈
         ["ConvexHull(external)", "BoundingBox(external)", "None"]) := by
  constructor
  · intro q hq
    simp [compute_gross_volume, hq]
  · intro hb hsum
    have hcond : ¬(storeyValues model.storeys ≠ [] ∧
        (storeyValues model.storeys).sum > 0) := by
      rintro ⟨-, hpos⟩
      exact absurd hpos (not_lt.mpr hsum)
    simp only [compute_gross_volume, hb, if_neg hcond]
    rcases hV : collect_building_vertices cfg model with - | ⟨v, vs⟩
    · exact ⟨by simp, by simp⟩
    · by_cases hS : cfg.hasScipy = true
      · rcases hH : cfg.convexHullVolume (v :: vs) with ⟨u⟩ | ⟨hv⟩
        · simp [hS, hH]
        · by_cases hP : (0 : ℚ) < hv
          · simp [hS, hH, hP]
          · simp [hS, hH, hP]
      · replace hS : cfg.hasScipy = false := by
          cases h : cfg.hasScipy
          · rfl
          · exact absurd h hS
        simp [hS]

/-- An `IfcBuildingStorey` whose gross-volume quantity resolves to
`0`. -/
def zeroStorey : Entity := ⟨"ST0", none, [volQtyRel "GrossVolume" (.num 0)], none⟩

/-- A model with no building quantity and a single zero-quantity
storey. -/
def zeroStoreyModel : BuildingModel := ⟨[], [], [zeroStorey], [], [], [], []⟩

/-- C3 (witness): a building quantity of `0` is returned under the
building tag, and a zero storey sum is skipped in favour of the
geometric tiers. -/
theorem C3_zero_advances_below_building_tier_witness :
    compute_gross_volume noGeomConfig zeroGrossModel = (0, "IfcBuilding:GrossVolume") ∧
    ((compute_gross_volume noGeomConfig zeroStoreyModel).2 ≠ "Σ Storey:GrossVolume" ∧
     (compute_gross_volume noGeomConfig zeroStoreyModel).2 ∈
       ["ConvexHull(external)", "BoundingBox(external)", "None"]) :=
  ⟨(C3_zero_advances_below_building_tier noGeomConfig zeroGrossModel).1 0 rfl,
   (C3_zero_advances_below_building_tier noGeomConfig zeroStoreyModel).2 rfl
     (by norm_num [show storeyValues zeroStoreyModel.storeys = [0] from rfl])⟩

/-- An entity whose first relationship holds a matched volume quantity
with a non-numeric direct `VolumeValue`, followed by a relationship
that would resolve to `5`. -/
def badThenGoodEntity : Entity :=
  ⟨"E4", none, [volQtyRel "Volume" .nonNum, volQtyRel "Volume" (.num 5)], none⟩

/-- The same entity with only the second, well-formed relationship. -/
def goodOnlyEntity : Entity := ⟨"E4b", none, [volQtyRel "Volume" (.num 5)], none⟩

/-- C4 (counterexample): the non-numeric `VolumeValue` in the first
relationship is an extraction failure, the second relationship alone
would supply `5`, yet the resolver returns absent for the whole
entity — the failure aborts the scan instead of skipping only that
relationship. -/
theorem C4_counterexample :
    get_quantity_volume_from_obj goodOnlyEntity ["NetVolume", "Volume"] = some 5 ∧
    get_quantity_volume_from_obj badThenGoodEntity ["NetVolume", "Volume"] = none :=
  ⟨rfl, rfl⟩

/-- C4 (amended): no extraction failure propagates as an exception to
the caller (the resolver returns an `Option`), and a failure reading
the wrapped nominal value is treated as a non-match with scanning
continuing into the remaining relationships; but a failure converting a
present direct `VolumeValue` aborts the entire scan and yields absent,
so a later relationship cannot supply the value in that case. -/
theorem C4_nominal_failure_skips_direct_failure_aborts (names : List String)
    (rels : List IfcRel) (gid : String) (nm : Option String) (ext : Option Bool)
    (n : String) (hn : names.contains n = true) :
    get_quantity_volume_from_obj ⟨gid, nm, nominalQtyRel n .nonNum :: rels, ext⟩ names =
      get_quantity_volume_from_obj ⟨gid, nm, rels, ext⟩ names ∧
    get_quantity_volume_from_obj ⟨gid, nm, volQtyRel n .nonNum :: rels, ext⟩ names =
      none := by
  have hb : nameMatches names (some n) = .ok true := by
    simp only [nameMatches]
    rw [hn, Bool.true_or]
  constructor
  · simp [get_quantity_volume_from_obj, nominalQtyRel, scanRels, scanQuantities,
      hb, floatConv]
  · simp [get_quantity_volume_from_obj, volQtyRel, scanRels, scanQuantities,
      hb, floatConv]

/-- C4 (witness): with candidate list `["Volume"]` and a good second
relationship worth `5`, the nominal-value failure skips ahead while the
direct-value failure yields absent. -/
theorem C4_nominal_failure_skips_direct_failure_aborts_witness :
    (get_quantity_volume_from_obj
        ⟨"g", none, nominalQtyRel "Volume" .nonNum :: [volQtyRel "Volume" (.num 5)], none⟩
        ["Volume"] =
      get_quantity_volume_from_obj ⟨"g", none, [volQtyRel "Volume" (.num 5)], none⟩
        ["Volume"]) ∧
    get_quantity_volume_from_obj
        ⟨"g", none, volQtyRel "Volume" .nonNum :: [volQtyRel "Volume" (.num 5)], none⟩
        ["Volume"] = none :=
  C4_nominal_failure_skips_direct_failure_aborts ["Volume"]
    [volQtyRel "Volume" (.num 5)] "g" none none "Volume" rfl

/-- A quantity set holding a case-insensitive match (`"volume"`, value
`1`) before an exact match (`"Volume"`, value `2`). -/
def caseTieEntity : Entity :=
  ⟨"E5", none,
   [⟨some (.elementQuantity
      [{ isVolume := true, name := some "volume", volumeValue := some (.num 1),
         nominalWrapped := none },
       { isVolume := true, name := some "Volume", volumeValue := some (.num 2),
         nominalWrapped := none }])⟩],
   none⟩

/-- C5 (counterexample): the quantity set holds both a case-insensitive
match (value `1`, first) and a case-sensitive match (value `2`,
second); the resolver returns the earlier case-insensitive match's
value `1`, not the case-sensitive match's value `2`. -/
theorem C5_counterexample :
    get_quantity_volume_from_obj caseTieEntity ["NetVolume", "Volume"] = some 1 ∧
    get_quantity_volume_from_obj caseTieEntity ["NetVolume", "Volume"] ≠ some 2 := by
  refine ⟨rfl, ?_⟩
  rw [show get_quantity_volume_from_obj caseTieEntity ["NetVolume", "Volume"] =
    some 1 from rfl]
  norm_num

/-- C5 (amended): within a quantity-set definition matching is
first-come in set order with no case-sensitivity preference: the first
volume-typed quantity whose name matches any candidate either exactly
or case-insensitively supplies the value, regardless of any later
match. -/
theorem C5_first_match_wins_no_case_preference (names : List String)
    (qs : List IfcQuantity) (gid : String) (nm : Option String) (ext : Option Bool)
    (n1 : String) (v1 : ℚ)
    (h1 : (names.contains n1 ||
           (names.map pyLower).contains (pyLower n1)) = true) :
    get_quantity_volume_from_obj
      ⟨gid, nm,
       [⟨some (.elementQuantity
          ({ isVolume := true, name := some n1, volumeValue := some (.num v1),
             nominalWrapped := none } :: qs))⟩],
       ext⟩ names = some v1 := by
  have hb : nameMatches names (some n1) = .ok true := by
    simp only [nameMatches]
    rw [h1]
  simp [get_quantity_volume_from_obj, scanRels, scanQuantities, hb, floatConv]

/-- C5 (witness): the amended rule at the counterexample's inputs — the
earlier, case-insensitive `"volume"` match supplies the value. -/
theorem C5_first_match_wins_no_case_preference_witness :
    get_quantity_volume_from_obj
      ⟨"E5", none,
       [⟨some (.elementQuantity
          [{ isVolume := true, name := some "volume", volumeValue := some (.num 1),
             nominalWrapped := none },
           { isVolume := true, name := some "Volume", volumeValue := some (.num 2),
             nominalWrapped := none }])⟩],
       none⟩ ["NetVolume", "Volume"] = some 1 :=
  C5_first_match_wins_no_case_preference ["NetVolume", "Volume"]
    [{ isVolume := true, name := some "Volume", volumeValue := some (.num 2),
       nominalWrapped := none }] "E5" none none "volume" 1 rfl

/-- C6: once the quantity tiers fail and envelope vertices were
collected, a positive hull volume is returned tagged
`ConvexHull(external)`, while a degenerate hull (nonpositive volume or
a raised hull-construction error) or an absent hull library falls
through to the bounding-box volume tagged `BoundingBox(external)` —
never a zero tagged `ConvexHull(external)`. -/
theorem C6_degenerate_hull_falls_to_bbox (cfg : Config) (model : BuildingModel)
    (v : Vec3) (vs : List Vec3)
    (hb : firstBuildingQuantity model.buildings = none)
    (hs : (storeyValues model.storeys).sum ≤ 0)
    (hverts : collect_building_vertices cfg model = v :: vs) :
    (∀ hv : ℚ, cfg.hasScipy = true → cfg.convexHullVolume (v :: vs) = .ok hv →
       0 < hv → compute_gross_volume cfg model = (hv, "ConvexHull(external)")) ∧
    ((cfg.hasScipy = false ∨ cfg.convexHullVolume (v :: vs) = .error () ∨
      ∃ hv : ℚ, cfg.convexHullVolume (v :: vs) = .ok hv ∧ hv ≤ 0) →
       compute_gross_volume cfg model =
         (bboxVolume v vs, "BoundingBox(external)")) := by
  have hcond : ¬(storeyValues model.storeys ≠ [] ∧
      (storeyValues model.storeys).sum > 0) := by
    rintro ⟨-, hpos⟩
    exact absurd hpos (not_lt.mpr hs)
  constructor
  · intro hv hS hH hP
    simp [compute_gross_volume, hb, if_neg hcond, hverts, hS, hH, hP]
  · rintro (hS | hH | ⟨hv, hH, hle⟩)
    · simp [compute_gross_volume, hb, if_neg hcond, hverts, hS]
    · by_cases hS : cfg.hasScipy = true
      · simp [compute_gross_volume, hb, if_neg hcond, hverts, hS, hH]
      · simp [compute_gross_volume, hb, if_neg hcond, hverts,
          Bool.not_eq_true cfg.hasScipy ▸ hS]
    · by_cases hS : cfg.hasScipy = true
      · simp [compute_gross_volume, hb, if_neg hcond, hverts, hS, hH, not_lt.mpr hle]
      · simp [compute_gross_volume, hb, if_neg hcond, hverts,
          Bool.not_eq_true cfg.hasScipy ▸ hS]

/-- Four coplanar envelope vertices, the spec's degenerate-hull
vignette. -/
def coplanarVerts : List Vec3 := [(0, 0, 0), (1, 0, 0), (0, 1, 0), (1, 1, 0)]

/-- One slab, no other entities: its tessellation is the whole
envelope. -/
def slabOnlyModel : BuildingModel :=
  ⟨[], [], [], [], [], [⟨"SL1", none, [], none⟩], []⟩

/-- A run where the hull library raises on the degenerate input. -/
def hullErrConfig : Config :=
  { hasGeom := true, hasTrimesh := false, hasScipy := true
    tessellate := fun _ => .ok ⟨coplanarVerts, []⟩
    trimeshVolume := fun _ _ => .error ()
    convexHullVolume := fun _ => .error () }

/-- A run where the hull library reports volume `42`. -/
def hullPosConfig : Config :=
  { hasGeom := true, hasTrimesh := false, hasScipy := true
    tessellate := fun _ => .ok ⟨coplanarVerts, []⟩
    trimeshVolume := fun _ _ => .error ()
    convexHullVolume := fun _ => .ok 42 }

/-- C6 (witness): a positive hull volume is returned under the hull
tag; a raised hull construction on the coplanar vertices falls to the
bounding box tag. -/
theorem C6_degenerate_hull_falls_to_bbox_witness :
    compute_gross_volume hullPosConfig slabOnlyModel = (42, "ConvexHull(external)") ∧
    compute_gross_volume hullErrConfig slabOnlyModel =
      (bboxVolume (0, 0, 0) [(1, 0, 0), (0, 1, 0), (1, 1, 0)], "BoundingBox(external)") :=
  ⟨(C6_degenerate_hull_falls_to_bbox hullPosConfig slabOnlyModel (0, 0, 0)
      [(1, 0, 0), (0, 1, 0), (1, 1, 0)] rfl
      (by norm_num [show storeyValues slabOnlyModel.storeys = [] from rfl]) rfl).1
      42 rfl rfl (by norm_num),
   (C6_degenerate_hull_falls_to_bbox hullErrConfig slabOnlyModel (0, 0, 0)
      [(1, 0, 0), (0, 1, 0), (1, 1, 0)] rfl
      (by norm_num [show storeyValues slabOnlyModel.storeys = [] from rfl]) rfl).2
      (Or.inr (Or.inl rfl))⟩

/-- C8: the mesh volume estimator is total by construction (every
raised exception inside it is handled, so it returns a plain rational).
When the trimesh tier yields no positive volume (unavailable, raised,
or nonpositive) and the signed-tetrahedron tier raises or sums to zero,
control falls through to the bounding-box computation; and whenever the
bounding-box computation itself raises (empty vertex array), the result
is `0.0`. -/
theorem C8_mesh_estimator_total (cfg : Config) (verts : List Vec3) (faces : List Face)
    (hT : cfg.hasTrimesh = false ∨ cfg.trimeshVolume verts faces = .error () ∨
          ∃ v : ℚ, cfg.trimeshVolume verts faces = .ok v ∧ v ≤ 0)
    (hS : signedSum verts faces = .error () ∨ signedSum verts faces = .ok 0) :
    volume_from_mesh cfg verts faces =
      (if verts = [] ∨ faces = [] then 0 else bboxFallback verts) ∧
    (bboxTier verts = .error () → volume_from_mesh cfg verts faces = 0) := by
  have key : volume_from_mesh cfg verts faces =
      if verts = [] ∨ faces = [] then 0 else bboxFallback verts := by
    unfold volume_from_mesh
    by_cases hE : verts = [] ∨ faces = []
    · simp [hE]
    · simp only [if_neg hE]
      by_cases hM : cfg.hasTrimesh = true
      · rcases hT with h | h | ⟨v, hok, hle⟩
        · rw [hM] at h
          exact absurd h (by simp)
        · simp [hM, h]
          rcases hS with h2 | h2 <;> simp [h2]
        · simp [hM, hok, not_lt.mpr hle]
          rcases hS with h2 | h2 <;> simp [h2]
      · simp [Bool.not_eq_true cfg.hasTrimesh ▸ hM]
        rcases hS with h2 | h2 <;> simp [h2]
  refine ⟨key, fun hbb => ?_⟩
  cases verts with
  | nil => simp [key]
  | cons a as => simp [bboxTier] at hbb

/-- C8 (witness): on the degenerate one-point mesh with no trimesh
library, both prior tiers fail or vanish and the result is the
bounding-box fallback. -/
theorem C8_mesh_estimator_total_witness :
    volume_from_mesh noGeomConfig [(0, 0, 0)] [(0, 0, 0)] =
      bboxFallback [(0, 0, 0)] := by
  have h := (C8_mesh_estimator_total noGeomConfig [(0, 0, 0)] [(0, 0, 0)]
    (Or.inl rfl) (Or.inr (by norm_num [signedSum, faceTerm, dot3, cross3]))).1
  simpa using h

/-- A model with no entities at all. -/
def emptyModel : BuildingModel := ⟨[], [], [], [], [], [], []⟩

/-- Rounding `0.0` to three decimals gives `0.0`. -/
theorem round3_zero : round3 (0 : ℚ) = 0 := by
  norm_num [round3, roundHalfEven]

/-- Renders `str()` of the zero volume. -/
theorem ratStr_zero : ratStr 0 = "0.0" := by
  norm_num [ratStr]
  decide

/-- The gross estimator on the empty model: every tier is empty. -/
theorem gross_emptyModel : compute_gross_volume noGeomConfig emptyModel = (0, "None") := by
  simp [compute_gross_volume, firstBuildingQuantity, storeyValues, emptyModel,
    collect_building_vertices, noGeomConfig]

/-- The aggregator on the empty model: no rows, zero total. -/
theorem net_emptyModel :
    compute_net_volume_spaces noGeomConfig emptyModel = (0, []) := by
  simp [compute_net_volume_spaces, emptyModel]

/-- C7 (counterexample): two runs of the pipeline on the same unmodified
model, one minute apart, produce different summary bytes — the summary
embeds `datetime.now()` at minute resolution. -/
theorem C7_counterexample :
    (mainOutputs noGeomConfig ⟨2026, 10, 12, 9, 0⟩ "model.ifc" emptyModel).1 ≠
      (mainOutputs noGeomConfig ⟨2026, 10, 12, 9, 1⟩ "model.ifc" emptyModel).1 := by
  simp only [mainOutputs, net_emptyModel, gross_emptyModel, summaryCSV, round3_zero,
    ratStr_zero]
  decide

/-- C7 (amended): the pipeline is deterministic in everything except
the report timestamp: the per-space output is byte-identical across
runs unconditionally, and the whole output (summary included) is
byte-identical whenever the two runs' clock readings format to the same
minute string. -/
theorem C7_deterministic_modulo_timestamp (cfg : Config) (model : BuildingModel)
    (ifcName : String) (ta tb : Timestamp) :
    (mainOutputs cfg ta ifcName model).2 = (mainOutputs cfg tb ifcName model).2 ∧
    (formatTimestamp ta = formatTimestamp tb →
      mainOutputs cfg ta ifcName model = mainOutputs cfg tb ifcName model) := by
  refine ⟨rfl, fun h => ?_⟩
  unfold mainOutputs summaryCSV
  rw [h]

/-- C7 (witness): equal formatted timestamps give byte-identical
outputs on a concrete run. -/
theorem C7_deterministic_modulo_timestamp_witness :
    mainOutputs noGeomConfig ⟨2026, 10, 12, 9, 0⟩ "model.ifc" emptyModel =
      mainOutputs noGeomConfig ⟨2026, 10, 12, 9, 0⟩ "model.ifc" emptyModel :=
  (C7_deterministic_modulo_timestamp noGeomConfig emptyModel "model.ifc"
    ⟨2026, 10, 12, 9, 0⟩ ⟨2026, 10, 12, 9, 0⟩).2 rfl

/-- C10: with zero space entities the summary is still produced — with
space count 0 and net total 0.0 — while no per-space table is produced
at all (not even a header-only one). -/
theorem C10_no_spaces_summary_only (cfg : Config) (now : Timestamp)
    (ifcName : String) (model : BuildingModel) (h : model.spaces = []) :
    (mainOutputs cfg now ifcName model).1 =
      summaryCSV now ifcName (compute_gross_volume cfg model).1
        (compute_gross_volume cfg model).2 0 0 ∧
    (mainOutputs cfg now ifcName model).2 = none := by
  have hn : compute_net_volume_spaces cfg model = (0, []) := by
    simp [compute_net_volume_spaces, h]
  exact ⟨by simp [mainOutputs, hn], by simp [mainOutputs, hn]⟩

/-- C10 (witness): the empty model writes a summary with count 0 and
net 0.0 and no per-space file. -/
theorem C10_no_spaces_summary_only_witness :
    (mainOutputs noGeomConfig ⟨2026, 10, 12, 9, 0⟩ "model.ifc" emptyModel).1 =
      summaryCSV ⟨2026, 10, 12, 9, 0⟩ "model.ifc"
        (compute_gross_volume noGeomConfig emptyModel).1
        (compute_gross_volume noGeomConfig emptyModel).2 0 0 ∧
    (mainOutputs noGeomConfig ⟨2026, 10, 12, 9, 0⟩ "model.ifc" emptyModel).2 = none :=
  C10_no_spaces_summary_only noGeomConfig ⟨2026, 10, 12, 9, 0⟩ "model.ifc"
    emptyModel rfl
